import Mathlib

/-! Verification development for the LMS_bypassV3 desktop utility.

The repository consists of a main script (src/LMS_bypass.pyw and a
round-robin variant, src/unnamed/part_001) that accumulates clipboard
text and screen-region screenshots, forwards them to the Gemini API,
and shows the answer in a transient overlay window, plus a watchdog
(src/watchdog.pyw) that supervises and restarts the main process.

The definitions below are a shallow embedding of that code: the
environment-dependent parts (how long an API call takes, whether it
raises, whether a terminated process exits within the wait timeout,
clipboard content, screen size, mouse coordinates) are explicit
parameters, and side effects (messages shown, processes started,
terminated or killed) are returned as explicit data. -/

/-! ## Outcomes of underlying API invocations -/

/-- Outcome of one underlying blocking
`client.models.generate_content` invocation (src/LMS_bypass.pyw):
it either completes with response text after `duration` seconds,
or raises an exception with message `msg`. -/
inductive ApiOutcome where
  | ok (text : String) (duration : Nat)
  | exn (msg : String)
deriving DecidableEq, Repr

/-- The fixed timeout (seconds) passed to `future.result(timeout=40)`
in `App._call_api` of src/LMS_bypass.pyw. -/
def RESULT_TIMEOUT : Nat := 40

/-- Embeds `App._call_api` of src/LMS_bypass.pyw (lines 224-240): the
call is submitted to the executor and awaited with `timeout=40`.  If it
completes in time its text is returned; on timeout or exception an
error message is shown and `None` is returned.  Returns
(result, messages shown). -/
def call_api_timeout (outcome : ApiOutcome) : Option String × List String :=
  match outcome with
  | .ok t d => if d ≤ RESULT_TIMEOUT then (some t, []) else (none, ["API call timed out!"])
  | .exn e => (none, ["API call error: " ++ e])

/-- Embeds `App._call_api` of src/LMS_bypass.pyw run against a sequence
of outcomes that successive underlying invocations would produce: the
code submits exactly one future, so exactly one outcome is consumed and
the rest of the sequence is returned untouched.  The empty-sequence case
never arises (the code always performs its one call). -/
def call_api_seq : List ApiOutcome → (Option String × List String) × List ApiOutcome
  | [] => ((none, []), [])
  | o :: rest => (call_api_timeout o, rest)

/-- Definition following the words of the spec sentence about
"trivial try/except-style retries": a wrapper that, when an invocation
raises or times out, retries the request with the next invocation
outcome instead of returning `None` after the first failure.  This is
NOT code from the repository; it exists only to be compared with
`call_api_seq`. -/
def retry_wrapper_spec : List ApiOutcome → Option String
  | [] => none
  | o :: rest =>
    match (call_api_timeout o).1 with
    | some t => some t
    | none => retry_wrapper_spec rest

/-! ## The round-robin client pool (src/unnamed/part_001) -/

/-- The fields of `App` from src/unnamed/part_001 that the round-robin
dispatcher uses: the list of API clients (one per key) and the cursor
`api_index`.  Clients are identified by their API key string. -/
structure App where
  clients : List String
  api_index : Nat
deriving DecidableEq, Repr

/-- Embeds `App.__init__` of src/unnamed/part_001 (lines 111-125): reads
the three keys API_KEY1..API_KEY3 (an unset variable is modelled as the
empty string, which is falsy like `None`), raises ValueError when any is
missing (`if not all(self.api_keys)`), and otherwise builds one client
per key with `api_index = 0`. -/
def App.init (k1 k2 k3 : String) : Option App :=
  if k1 = "" ∨ k2 = "" ∨ k3 = "" then none
  else some { clients := [k1, k2, k3], api_index := 0 }

/-- Embeds `App._get_next_client` of src/unnamed/part_001 (lines
169-173): under `api_lock`, return `clients[api_index]` and advance
`api_index` to `(api_index + 1) % len(clients)`. -/
def get_next_client (a : App) : String × App :=
  (a.clients.getD a.api_index "",
   { a with api_index := (a.api_index + 1) % a.clients.length })

/-- The state after `k` successive calls to `_get_next_client`. -/
def run_calls (a : App) : Nat → App
  | 0 => a
  | k + 1 => (get_next_client (run_calls a k)).2

/-- Outcome of one underlying `client.models.generate_content_stream`
invocation (src/unnamed/part_001): either a stream of chunks, each with
optional text, delivered over `duration` seconds, or an exception. -/
inductive StreamOutcome where
  | chunks (cs : List (Option String)) (duration : Nat)
  | exn (msg : String)
deriving DecidableEq, Repr

/-- Embeds `App._call_api_single` of src/unnamed/part_001 (lines
175-206): stream the response, concatenating every chunk whose text is
not `None`; on exception show an error message and return `None`.
There is no timeout anywhere in this function: the duration of the
stream is ignored.  Returns (result, messages shown). -/
def call_api_single (outcome : StreamOutcome) : Option String × List String :=
  match outcome with
  | .chunks cs _ => (some (String.join (cs.filterMap id)), [])
  | .exn e => (none, ["API call error: " ++ e])

/-- Embeds `App._call_api` of src/unnamed/part_001 (lines 209-214), the
round-robin wrapper: pick the next client in round-robin fashion, then
send the request through `_call_api_single`.  The model and prompt
strings are carried for faithfulness; the response is determined by the
invocation outcome. -/
def call_api_rr (a : App) (model prompt : String) (outcome : StreamOutcome) :
    (Option String × List String) × App :=
  let next := get_next_client a
  (call_api_single outcome, next.2)

/-! ## The watchdog (src/watchdog.pyw) -/

/-- A monitored child process: its pid and whether it is still running
(`poll() is None` exactly when `alive = true`). -/
structure Proc where
  pid : Nat
  alive : Bool
deriving DecidableEq, Repr

/-- Observable process-management events emitted by the watchdog. -/
inductive Ev where
  | started (pid : Nat)
  | terminate_sent (pid : Nat)
  | killed (pid : Nat)
deriving DecidableEq, Repr

/-- The `Watchdog` state (src/watchdog.pyw): the script name, the
current child process (always set once `__init__` has run, since
`__init__` calls `start_process`), the `running` flag, and a fresh-pid
supply modelling the OS assigning a new pid to each spawned process. -/
structure Watchdog where
  script_name : String
  process : Proc
  running : Bool
  next_pid : Nat
deriving DecidableEq, Repr

/-- Embeds `Watchdog.start_process` (src/watchdog.pyw lines 16-31):
spawn a new child process, which starts out alive with a fresh pid. -/
def Watchdog.start_process (w : Watchdog) : Watchdog × List Ev :=
  ({ w with process := { pid := w.next_pid, alive := true }, next_pid := w.next_pid + 1 },
   [Ev.started w.next_pid])

/-- Embeds `Watchdog.restart_process` (src/watchdog.pyw lines 33-46):
if the current process is still running (`poll() is None`), terminate
it, wait up to 5 seconds, and kill it if it did not exit in time
(`exits_in_time` models whether it did); then start a new process. -/
def Watchdog.restart_process (w : Watchdog) (exits_in_time : Bool) : Watchdog × List Ev :=
  if w.process.alive then
    let evs := [Ev.terminate_sent w.process.pid] ++
      (if exits_in_time then [] else [Ev.killed w.process.pid])
    let w1 := { w with process := { w.process with alive := false } }
    let next := w1.start_process
    (next.1, evs ++ next.2)
  else
    w.start_process

/-- Embeds `Watchdog.hotkey_restart` (src/watchdog.pyw lines 63-68),
the Ctrl+Shift+Backspace callback: it just calls `restart_process`. -/
def Watchdog.hotkey_restart (w : Watchdog) (exits_in_time : Bool) : Watchdog × List Ev :=
  w.restart_process exits_in_time

/-- Embeds `Watchdog.stop_watchdog` (src/watchdog.pyw lines 48-61):
set `running` to `False`; if the child is still running, terminate it,
wait up to 5 seconds, and kill it on `TimeoutExpired`
(`exits_in_time` models whether it exited within the 5 seconds). -/
def Watchdog.stop_watchdog (w : Watchdog) (exits_in_time : Bool) : Watchdog × List Ev :=
  let w0 := { w with running := false }
  if w0.process.alive then
    ({ w0 with process := { w0.process with alive := false } },
     [Ev.terminate_sent w0.process.pid] ++
       (if exits_in_time then [] else [Ev.killed w0.process.pid]))
  else
    (w0, [])

/-- Embeds one iteration of the monitoring loop in `Watchdog.run`
(src/watchdog.pyw lines 79-85): if the process has exited
(`poll() is not None`) and `running` is still true, start a new one. -/
def monitor_step (w : Watchdog) : Watchdog × List Ev :=
  if !w.process.alive && w.running then w.start_process else (w, [])

/-! ## The clipboard text and image buffers (src/LMS_bypass.pyw) -/

/-- The text buffer of `App`: the ordered list `logged_text` and the
membership set `logged_text_set` (a Python `set`, modelled as a
`Finset`). -/
structure TextBuf where
  logged_text : List String
  logged_text_set : Finset String
deriving DecidableEq

/-- The buffers of `App` touched by the query operations: the text
buffer and `captured_images` (images are modelled by opaque ids). -/
structure BufState where
  text : TextBuf
  captured_images : List Nat
deriving DecidableEq

/-- The invariant the clipboard accumulator is claimed to maintain:
`logged_text` has no duplicate entries and `logged_text_set` is exactly
the set of its elements. -/
def TextInv (b : TextBuf) : Prop :=
  b.logged_text.Nodup ∧ b.logged_text_set = b.logged_text.toFinset

instance (b : TextBuf) : Decidable (TextInv b) := by
  unfold TextInv
  infer_instance

/-- Python's `str.strip()`: drop whitespace characters from both ends
of the string (working over the underlying character list). -/
def python_strip (s : String) : String :=
  ⟨((s.data.dropWhile Char.isWhitespace).reverse.dropWhile Char.isWhitespace).reverse⟩

/-- Embeds `App.on_copy` (src/LMS_bypass.pyw lines 209-219 and
src/unnamed/part_001 lines 421-431): strip the clipboard content; if it
is non-empty, then under `text_lock`, if it is not already in
`logged_text_set`, append it to `logged_text` and add it to the set. -/
def on_copy (b : TextBuf) (clipboard : String) : TextBuf :=
  if python_strip clipboard = "" then b
  else if python_strip clipboard ∈ b.logged_text_set then b
  else { logged_text := b.logged_text ++ [python_strip clipboard],
         logged_text_set := insert (python_strip clipboard) b.logged_text_set }

/-- Result of a query operation on the buffers: the new buffer state,
the messages shown, and whether an API request was issued. -/
structure QueryResult where
  state : BufState
  messages : List String
  api_called : Bool
deriving DecidableEq

/-- Embeds `App.process_text_only_query` (src/LMS_bypass.pyw lines
278-289): under `text_lock`, if `logged_text` is empty show an error
and return; otherwise join it, clear both text structures, and submit
the API query. -/
def process_text_only_query (s : BufState) : QueryResult :=
  if s.text.logged_text = [] then
    { state := s, messages := ["No text content available!"], api_called := false }
  else
    { state := { s with text := { logged_text := [], logged_text_set := ∅ } },
      messages := [], api_called := true }

/-- Embeds `App.process_combined_query` (src/LMS_bypass.pyw lines
319-343 and src/unnamed/part_001 lines 296-325): under `text_lock`, if
`logged_text` is empty show an error and return; otherwise join it and
clear both text structures.  Then under `image_lock`, if
`captured_images` is empty show an error and return (the text buffer
stays cleared); otherwise pop the last image and call the API. -/
def process_combined_query (s : BufState) : QueryResult :=
  if s.text.logged_text = [] then
    { state := s, messages := ["No text content available for combined query!"],
      api_called := false }
  else if s.captured_images = [] then
    { state := { s with text := { logged_text := [], logged_text_set := ∅ } },
      messages := ["No captured images available for combined query!"],
      api_called := false }
  else
    { state := { s with
                 text := ({ logged_text := [], logged_text_set := ∅ } : TextBuf)
                 captured_images := s.captured_images.dropLast },
      messages := [], api_called := true }

/-- Embeds the buffer effect of `process_current_query` inside
`App.register_hotkeys` (src/LMS_bypass.pyw lines 358-365): under
`text_lock`, take the joined text (or `None`) and clear both text
structures unconditionally; under `image_lock`, pop the last image if
any. -/
def process_current_query (s : BufState) : BufState :=
  { text := { logged_text := [], logged_text_set := ∅ },
    captured_images := s.captured_images.dropLast }

/-! ## The message overlay window (src/LMS_bypass.pyw) -/

/-- The window attributes `MessageManager._show_message` sets on the
Toplevel it creates. -/
structure MsgWindow where
  overrideredirect : Bool
  topmost : Bool
  width : Int
  height : Int
  x : Int
  y : Int
  destroy_after_ms : Nat
deriving DecidableEq, Repr

/-- Embeds `MessageManager._show_message` (src/LMS_bypass.pyw lines
46-77 and src/unnamed/part_001 lines 49-80): the window is created with
`overrideredirect(True)` and the `-topmost` attribute, sized 300 by 100,
repositioned to the bottom-right corner of the screen with a 10-pixel
margin, and its destruction is scheduled with `win.after(5000,
win.destroy)`. -/
def show_message_window (screen_width screen_height : Int) : MsgWindow :=
  let window_width : Int := 300
  let window_height : Int := 100
  { overrideredirect := true
    topmost := true
    width := window_width
    height := window_height
    x := screen_width - window_width - 10
    y := screen_height - window_height - 10
    destroy_after_ms := 5000 }

/-! ## Region capture bounding box (src/LMS_bypass.pyw) -/

/-- The bounding box handed to `ImageGrab.grab`. -/
structure BBox where
  left : Int
  top : Int
  right : Int
  bottom : Int
deriving DecidableEq, Repr

/-- Embeds the bounding-box computation of `on_release` inside
`App.capture_region` (src/LMS_bypass.pyw lines 183-194 and
src/unnamed/part_001 lines 395-406): each coordinate is the window
origin plus the min (resp. max) of the press and release coordinates. -/
def capture_bbox (root_x root_y sx sy ex ey : Int) : BBox :=
  { left := root_x + min sx ex
    top := root_y + min sy ey
    right := root_x + max sx ex
    bottom := root_y + max sy ey }

/-! ## Lock discipline of the buffer accesses (src/LMS_bypass.pyw)

Each hotkey-triggered operation is transcribed, in program order, as
the list of its accesses to the three shared buffers, each tagged with
the lock held at that point (derived from the `with self.text_lock:` /
`with self.image_lock:` blocks in the source). -/

/-- The three shared buffers named by the concurrency claim. -/
inductive Buffer where
  | loggedText
  | loggedTextSet
  | capturedImages
deriving DecidableEq, Repr

/-- The two locks of `App.__init__`. -/
inductive LockId where
  | textLock
  | imageLock
deriving DecidableEq, Repr

/-- Whether a buffer access reads or modifies the buffer. -/
inductive AccessKind where
  | read
  | write
deriving DecidableEq, Repr

/-- One access to a shared buffer, tagged with the lock held (if any)
when it executes. -/
structure Access where
  buffer : Buffer
  kind : AccessKind
  held : Option LockId
deriving DecidableEq, Repr

/-- The lock that guards each buffer. -/
def guard_of : Buffer → LockId
  | .loggedText => .textLock
  | .loggedTextSet => .textLock
  | .capturedImages => .imageLock

/-- An access is lock-correct when it holds the guard of the buffer it
touches. -/
def lock_ok (a : Access) : Bool :=
  a.held = some (guard_of a.buffer)

/-- Accesses of `App.on_copy` (src/LMS_bypass.pyw lines 209-219): the
membership test, the append and the set-add all happen inside
`with self.text_lock:`. -/
def on_copy_accesses : List Access :=
  [⟨.loggedTextSet, .read, some .textLock⟩,
   ⟨.loggedText, .write, some .textLock⟩,
   ⟨.loggedTextSet, .write, some .textLock⟩]

/-- Accesses of `on_release` inside `App.capture_region`
(src/LMS_bypass.pyw lines 193-198): the append happens inside
`with self.image_lock:`, but the following
`logger.info(..., len(self.captured_images))` reads the buffer after
the `with` block has ended, holding no lock. -/
def capture_release_accesses : List Access :=
  [⟨.capturedImages, .write, some .imageLock⟩,
   ⟨.capturedImages, .read, none⟩]

/-- Accesses of `App.process_text_only_query` (src/LMS_bypass.pyw lines
278-289): the emptiness test, the join and the two clears all happen
inside `with self.text_lock:`. -/
def process_text_only_accesses : List Access :=
  [⟨.loggedText, .read, some .textLock⟩,
   ⟨.loggedText, .read, some .textLock⟩,
   ⟨.loggedText, .write, some .textLock⟩,
   ⟨.loggedTextSet, .write, some .textLock⟩]

/-- Accesses of `App.process_image_only_query` (src/LMS_bypass.pyw
lines 291-301): the emptiness test, the copy and the clear all happen
inside `with self.image_lock:`. -/
def process_image_only_accesses : List Access :=
  [⟨.capturedImages, .read, some .imageLock⟩,
   ⟨.capturedImages, .read, some .imageLock⟩,
   ⟨.capturedImages, .write, some .imageLock⟩]

/-- Accesses of `App.process_combined_query` (src/LMS_bypass.pyw lines
319-338): the text accesses inside `with self.text_lock:`, the image
accesses inside `with self.image_lock:`. -/
def process_combined_accesses : List Access :=
  [⟨.loggedText, .read, some .textLock⟩,
   ⟨.loggedText, .read, some .textLock⟩,
   ⟨.loggedText, .write, some .textLock⟩,
   ⟨.loggedTextSet, .write, some .textLock⟩,
   ⟨.capturedImages, .read, some .imageLock⟩,
   ⟨.capturedImages, .write, some .imageLock⟩]

/-- Accesses of `process_current_query` inside `App.register_hotkeys`
(src/LMS_bypass.pyw lines 358-365): the text accesses inside
`with self.text_lock:`, the image accesses inside
`with self.image_lock:`. -/
def process_current_accesses : List Access :=
  [⟨.loggedText, .read, some .textLock⟩,
   ⟨.loggedText, .write, some .textLock⟩,
   ⟨.loggedTextSet, .write, some .textLock⟩,
   ⟨.capturedImages, .read, some .imageLock⟩,
   ⟨.capturedImages, .write, some .imageLock⟩]

/-- All buffer accesses of the hotkey-triggered operations, in the
order the operations are listed by the claim. -/
def all_hotkey_accesses : List Access :=
  on_copy_accesses ++ capture_release_accesses ++ process_text_only_accesses ++
    process_image_only_accesses ++ process_combined_accesses ++ process_current_accesses

/-! ## Theorems -/

/-- Helper: `_get_next_client` never changes the client list. -/
lemma run_calls_clients (a : App) (k : Nat) : (run_calls a k).clients = a.clients := by
  induction k with
  | zero => rfl
  | succ k ih => simp [run_calls, get_next_client, ih]

/-- Helper: starting below 3 with three clients, the cursor after `k`
calls is the start plus `k`, modulo 3. -/
lemma run_calls_index (a : App) (k : Nat) (hlen : a.clients.length = 3)
    (h0 : a.api_index < 3) :
    (run_calls a k).api_index = (a.api_index + k) % 3 := by
  induction k with
  | zero => simp [run_calls]; omega
  | succ k ih =>
    have hc := run_calls_clients a k
    simp only [run_calls, get_next_client, hc, hlen, ih]
    omega

/-- Claim C2 (confirmed): on an `App` built by `__init__` from three
keys (n = 3), the k-th call to `_get_next_client` (counting from 0)
returns `clients[k mod 3]`, and after every call `api_index` stays in
the range [0, 3). -/
theorem round_robin_cycles (k1 k2 k3 : String) (app : App) (k : Nat)
    (h : App.init k1 k2 k3 = some app) :
    (get_next_client (run_calls app k)).1 = app.clients.getD (k % 3) "" ∧
    (run_calls app (k + 1)).api_index < 3 := by
  have happ : app.clients = [k1, k2, k3] ∧ app.api_index = 0 := by
    unfold App.init at h
    split at h
    · exact absurd h (by simp)
    · cases h
      exact ⟨rfl, rfl⟩
  obtain ⟨hc, hi⟩ := happ
  have hlen : app.clients.length = 3 := by rw [hc]; rfl
  have hidx := run_calls_index app k hlen (by omega)
  have hcl := run_calls_clients app k
  refine ⟨?_, ?_⟩
  · simp [get_next_client, hcl, hidx, hi]
  · have h2 := run_calls_index app (k + 1) hlen (by omega)
    rw [h2]
    omega

/-- Witness for C2 at three concrete keys and k = 4. -/
theorem round_robin_cycles_inst :
    (get_next_client (run_calls ⟨["K1", "K2", "K3"], 0⟩ 4)).1 =
      (⟨["K1", "K2", "K3"], 0⟩ : App).clients.getD (4 % 3) "" ∧
    (run_calls ⟨["K1", "K2", "K3"], 0⟩ (4 + 1)).api_index < 3 :=
  round_robin_cycles "K1" "K2" "K3" ⟨["K1", "K2", "K3"], 0⟩ 4 (by decide)

/-- Counterexample to claim C1 as stated: the round-robin wrapper
`_call_api` of src/unnamed/part_001 is NOT subject to any fixed
timeout.  An underlying streaming call that takes 1000 seconds, far
beyond the 40-second bound of the other variant, is still awaited and
its text returned rather than abandoned with `None`. -/
theorem round_robin_ignores_duration :
    RESULT_TIMEOUT < 1000 ∧
    ((call_api_rr ⟨["K1", "K2", "K3"], 0⟩ "gemini-2.0-pro-exp-02-05" "question"
        (.chunks [some "B. 42"] 1000)).1).1 = some "B. 42" := by
  exact ⟨by decide, rfl⟩

/-- Claim C1 (amended): the fixed 40-second timeout belongs to the
single-client wrapper `_call_api` of src/LMS_bypass.pyw, which abandons
a call exceeding it, reports an error and returns `None`; the
round-robin wrapper `_call_api` of src/unnamed/part_001 imposes no time
bound at all: it returns `None` (with an error message) exactly when
the underlying streaming call raises, and otherwise returns the
streamed text whatever its duration. -/
theorem timeout_only_in_single_client_wrapper :
    (∀ t d, RESULT_TIMEOUT < d →
      call_api_timeout (.ok t d) = (none, ["API call timed out!"])) ∧
    (∀ e, call_api_timeout (.exn e) = (none, ["API call error: " ++ e])) ∧
    (∀ a m p cs d, (((call_api_rr a m p (.chunks cs d)).1).1).isSome = true) ∧
    (∀ a m p e, (call_api_rr a m p (.exn e)).1 = (none, ["API call error: " ++ e])) := by
  refine ⟨?_, ?_, ?_, ?_⟩
  · intro t d hd
    have hnd : ¬ d ≤ RESULT_TIMEOUT := Nat.not_le.mpr hd
    simp [call_api_timeout, hnd]
  · intro e
    rfl
  · intro a m p cs d
    rfl
  · intro a m p e
    rfl

/-- Witness for the amended C1 at concrete inputs. -/
theorem timeout_only_in_single_client_wrapper_inst :
    call_api_timeout (.ok "B. 42" 41) = (none, ["API call timed out!"]) ∧
    call_api_timeout (.exn "boom") = (none, ["API call error: " ++ "boom"]) ∧
    (((call_api_rr ⟨["K1", "K2", "K3"], 0⟩ "m" "p" (.chunks [some "B. 42"] 41)).1).1).isSome
      = true ∧
    (call_api_rr ⟨["K1", "K2", "K3"], 0⟩ "m" "p" (.exn "boom")).1 =
      (none, ["API call error: " ++ "boom"]) :=
  ⟨timeout_only_in_single_client_wrapper.1 "B. 42" 41 (by decide),
   timeout_only_in_single_client_wrapper.2.1 "boom",
   timeout_only_in_single_client_wrapper.2.2.1 ⟨["K1", "K2", "K3"], 0⟩ "m" "p"
     [some "B. 42"] 41,
   timeout_only_in_single_client_wrapper.2.2.2 ⟨["K1", "K2", "K3"], 0⟩ "m" "p" "boom"⟩

/-- Counterexample to claim C4 as stated: on a failing invocation the
wrapper returns `None` after reporting the error once, while a wrapper
that retried the request (as the claim describes) would have obtained
the answer from the second invocation. -/
theorem wrapper_does_not_retry :
    (call_api_seq [.exn "boom", .ok "B. 42" 1]).1 =
      (none, ["API call error: " ++ "boom"]) ∧
    retry_wrapper_spec [.exn "boom", .ok "B. 42" 1] = some "B. 42" := by
  exact ⟨rfl, rfl⟩

/-- Claim C4 (amended): failure handling is try/except only, with no
retry: when the underlying call raises or exceeds the 40-second
timeout, `_call_api` reports the error and returns `None`, consuming
exactly one invocation outcome and leaving the rest of the invocation
sequence untouched. -/
theorem failure_handling_single_attempt :
    (∀ e rest, call_api_seq (.exn e :: rest) =
      ((none, ["API call error: " ++ e]), rest)) ∧
    (∀ t d rest, RESULT_TIMEOUT < d → call_api_seq (.ok t d :: rest) =
      ((none, ["API call timed out!"]), rest)) := by
  refine ⟨?_, ?_⟩
  · intro e rest
    rfl
  · intro t d rest hd
    have hnd : ¬ d ≤ RESULT_TIMEOUT := Nat.not_le.mpr hd
    simp [call_api_seq, call_api_timeout, hnd]

/-- Witness for the amended C4 at concrete inputs. -/
theorem failure_handling_single_attempt_inst :
    call_api_seq (.exn "boom" :: [.ok "B. 42" 1]) =
      ((none, ["API call error: " ++ "boom"]), [.ok "B. 42" 1]) ∧
    call_api_seq (.ok "late" 41 :: []) = ((none, ["API call timed out!"]), []) :=
  ⟨failure_handling_single_attempt.1 "boom" [.ok "B. 42" 1],
   failure_handling_single_attempt.2 "late" 41 [] (by decide)⟩

/-- Claim C3 (confirmed): in any monitoring-loop iteration where
`running` is true and the child has exited, a new child process is
started; and the hotkey callback `hotkey_restart`, on a state whose
child is alive, terminates it and starts a new one (which is alive). -/
theorem watchdog_restarts_on_crash_and_hotkey (w1 w2 : Watchdog) (b : Bool)
    (hrun : w1.running = true) (hdead : w1.process.alive = false)
    (halive : w2.process.alive = true) :
    (monitor_step w1).1.process.alive = true ∧
    Ev.started w1.next_pid ∈ (monitor_step w1).2 ∧
    Ev.terminate_sent w2.process.pid ∈ (w2.hotkey_restart b).2 ∧
    (w2.hotkey_restart b).1.process.alive = true ∧
    Ev.started w2.next_pid ∈ (w2.hotkey_restart b).2 := by
  refine ⟨?_, ?_, ?_, ?_, ?_⟩ <;>
    simp [monitor_step, hdead, hrun, Watchdog.hotkey_restart, Watchdog.restart_process,
      halive, Watchdog.start_process]

/-- Witness for C3: a crashed child under a running watchdog, and a
live child restarted by hotkey. -/
theorem watchdog_restarts_on_crash_and_hotkey_inst :
    (monitor_step ⟨"LMS_bypass.pyw", ⟨7, false⟩, true, 8⟩).1.process.alive = true ∧
    Ev.started 8 ∈ (monitor_step ⟨"LMS_bypass.pyw", ⟨7, false⟩, true, 8⟩).2 ∧
    Ev.terminate_sent 7 ∈
      ((⟨"LMS_bypass.pyw", ⟨7, true⟩, true, 8⟩ : Watchdog).hotkey_restart true).2 ∧
    ((⟨"LMS_bypass.pyw", ⟨7, true⟩, true, 8⟩ : Watchdog).hotkey_restart true).1.process.alive
      = true ∧
    Ev.started 8 ∈
      ((⟨"LMS_bypass.pyw", ⟨7, true⟩, true, 8⟩ : Watchdog).hotkey_restart true).2 :=
  watchdog_restarts_on_crash_and_hotkey ⟨"LMS_bypass.pyw", ⟨7, false⟩, true, 8⟩
    ⟨"LMS_bypass.pyw", ⟨7, true⟩, true, 8⟩ true rfl rfl rfl

/-- Claim C5 (confirmed): `stop_watchdog` sets `running` to false and
leaves no live child: if the child was alive it is asked to terminate,
and if it does not exit within the 5-second wait it is killed; in every
case the resulting state has no live child process. -/
theorem stop_watchdog_no_live_child (w : Watchdog) (b : Bool) :
    (w.stop_watchdog b).1.running = false ∧
    (w.stop_watchdog b).1.process.alive = false ∧
    (w.process.alive = true →
      Ev.terminate_sent w.process.pid ∈ (w.stop_watchdog b).2) ∧
    (w.process.alive = true → b = false →
      Ev.killed w.process.pid ∈ (w.stop_watchdog b).2) := by
  cases hw : w.process.alive
  · refine ⟨?_, ?_, ?_, ?_⟩ <;> simp [Watchdog.stop_watchdog, hw]
  · refine ⟨?_, ?_, ?_, ?_⟩ <;>
      simp [Watchdog.stop_watchdog, hw]

/-- Witness for C5: a live child that does not exit within the wait is
terminated, then killed, and the watchdog stops. -/
theorem stop_watchdog_no_live_child_inst :
    ((⟨"LMS_bypass.pyw", ⟨7, true⟩, true, 8⟩ : Watchdog).stop_watchdog false).1.running
      = false ∧
    ((⟨"LMS_bypass.pyw", ⟨7, true⟩, true, 8⟩ : Watchdog).stop_watchdog
        false).1.process.alive = false ∧
    Ev.terminate_sent 7 ∈
      ((⟨"LMS_bypass.pyw", ⟨7, true⟩, true, 8⟩ : Watchdog).stop_watchdog false).2 ∧
    Ev.killed 7 ∈
      ((⟨"LMS_bypass.pyw", ⟨7, true⟩, true, 8⟩ : Watchdog).stop_watchdog false).2 :=
  ⟨(stop_watchdog_no_live_child ⟨"LMS_bypass.pyw", ⟨7, true⟩, true, 8⟩ false).1,
   (stop_watchdog_no_live_child ⟨"LMS_bypass.pyw", ⟨7, true⟩, true, 8⟩ false).2.1,
   (stop_watchdog_no_live_child ⟨"LMS_bypass.pyw", ⟨7, true⟩, true, 8⟩ false).2.2.1 rfl,
   (stop_watchdog_no_live_child ⟨"LMS_bypass.pyw", ⟨7, true⟩, true, 8⟩ false).2.2.2 rfl rfl⟩

/-- Helper: the cleared text buffer satisfies the accumulator
invariant. -/
lemma TextInv_empty : TextInv ⟨[], ∅⟩ :=
  ⟨List.nodup_nil, rfl⟩

/-- Claim C6 (confirmed): `on_copy` appends the stripped clipboard
content only when it is non-empty and not already logged, and
`on_copy`, `process_text_only_query`, `process_combined_query` and
`process_current_query` all preserve the invariant that `logged_text`
has no duplicates and `logged_text_set` is exactly its set of
elements. -/
theorem text_buffer_no_duplicates (s : BufState) (c : String) (h : TextInv s.text) :
    TextInv (on_copy s.text c) ∧
    (on_copy s.text c ≠ s.text →
      python_strip c ≠ "" ∧ python_strip c ∉ s.text.logged_text_set ∧
      (on_copy s.text c).logged_text = s.text.logged_text ++ [python_strip c]) ∧
    TextInv (process_text_only_query s).state.text ∧
    TextInv (process_combined_query s).state.text ∧
    TextInv (process_current_query s).text := by
  obtain ⟨hnd, hset⟩ := h
  refine ⟨?_, ?_, ?_, ?_, ?_⟩
  · unfold on_copy
    by_cases h1 : python_strip c = ""
    · rw [if_pos h1]
      exact ⟨hnd, hset⟩
    · rw [if_neg h1]
      by_cases h2 : python_strip c ∈ s.text.logged_text_set
      · rw [if_pos h2]
        exact ⟨hnd, hset⟩
      · rw [if_neg h2]
        have hnl : python_strip c ∉ s.text.logged_text := by
          rw [hset, List.mem_toFinset] at h2
          exact h2
        refine ⟨?_, ?_⟩
        · simp [List.nodup_append, hnd, hnl]
        · rw [hset]
          ext x
          simp [or_comm]
  · unfold on_copy
    by_cases h1 : python_strip c = ""
    · rw [if_pos h1]
      intro hne
      exact absurd rfl hne
    · rw [if_neg h1]
      by_cases h2 : python_strip c ∈ s.text.logged_text_set
      · rw [if_pos h2]
        intro hne
        exact absurd rfl hne
      · rw [if_neg h2]
        intro _
        exact ⟨h1, h2, rfl⟩
  · unfold process_text_only_query
    by_cases h1 : s.text.logged_text = []
    · rw [if_pos h1]
      exact ⟨hnd, hset⟩
    · rw [if_neg h1]
      exact TextInv_empty
  · unfold process_combined_query
    by_cases h1 : s.text.logged_text = []
    · rw [if_pos h1]
      exact ⟨hnd, hset⟩
    · rw [if_neg h1]
      by_cases h2 : s.captured_images = []
      · rw [if_pos h2]
        exact TextInv_empty
      · rw [if_neg h2]
        exact TextInv_empty
  · exact TextInv_empty

/-- Witness for C6 on a concrete one-entry buffer and fresh clipboard
content. -/
theorem text_buffer_no_duplicates_inst :
    TextInv (on_copy ⟨["alpha"], {"alpha"}⟩ " beta ") ∧
    (python_strip " beta " ≠ "" ∧
      python_strip " beta " ∉
        (⟨⟨["alpha"], {"alpha"}⟩, []⟩ : BufState).text.logged_text_set ∧
      (on_copy ⟨["alpha"], {"alpha"}⟩ " beta ").logged_text =
        ["alpha"] ++ [python_strip " beta "]) ∧
    TextInv (process_text_only_query ⟨⟨["alpha"], {"alpha"}⟩, []⟩).state.text ∧
    TextInv (process_combined_query ⟨⟨["alpha"], {"alpha"}⟩, []⟩).state.text ∧
    TextInv (process_current_query ⟨⟨["alpha"], {"alpha"}⟩, []⟩).text :=
  have h := text_buffer_no_duplicates ⟨⟨["alpha"], {"alpha"}⟩, []⟩ " beta " (by decide)
  ⟨h.1, h.2.1 (by decide), h.2.2.1, h.2.2.2.1, h.2.2.2.2⟩

/-- Claim C7 (confirmed): on a state with logged text but no captured
images, `process_combined_query` shows the no-images error and issues
no API call, yet the text buffer has already been cleared, so the
logged clipboard text is lost. -/
theorem combined_query_error_path_loses_text (s : BufState)
    (h1 : s.text.logged_text ≠ []) (h2 : s.captured_images = []) :
    (process_combined_query s).api_called = false ∧
    (process_combined_query s).messages =
      ["No captured images available for combined query!"] ∧
    (process_combined_query s).state.text.logged_text = [] ∧
    (process_combined_query s).state.text.logged_text_set = ∅ := by
  unfold process_combined_query
  simp [h1, h2]

/-- Witness for C7 on a concrete state with one logged text and no
images. -/
theorem combined_query_error_path_loses_text_inst :
    (process_combined_query ⟨⟨["question"], {"question"}⟩, []⟩).api_called = false ∧
    (process_combined_query ⟨⟨["question"], {"question"}⟩, []⟩).messages =
      ["No captured images available for combined query!"] ∧
    (process_combined_query ⟨⟨["question"], {"question"}⟩, []⟩).state.text.logged_text
      = [] ∧
    (process_combined_query ⟨⟨["question"], {"question"}⟩, []⟩).state.text.logged_text_set
      = ∅ :=
  combined_query_error_path_loses_text ⟨⟨["question"], {"question"}⟩, []⟩
    (by decide) rfl

/-- Claim C8 (confirmed): for every screen size, `_show_message`
creates the window with `overrideredirect` set, the topmost attribute
set, positioned at the bottom-right corner of the screen (a 10-pixel
margin from each edge), and schedules its destruction 5000
milliseconds after creation. -/
theorem message_window_properties (screen_width screen_height : Int) :
    (show_message_window screen_width screen_height).overrideredirect = true ∧
    (show_message_window screen_width screen_height).topmost = true ∧
    (show_message_window screen_width screen_height).x =
      screen_width - (show_message_window screen_width screen_height).width - 10 ∧
    (show_message_window screen_width screen_height).y =
      screen_height - (show_message_window screen_width screen_height).height - 10 ∧
    (show_message_window screen_width screen_height).destroy_after_ms = 5000 :=
  ⟨rfl, rfl, rfl, rfl, rfl⟩

/-- Claim C9 (confirmed): whatever the drag direction, the bounding box
passed to the screen grab satisfies left ≤ right and top ≤ bottom. -/
theorem capture_bbox_normalized (root_x root_y sx sy ex ey : Int) :
    (capture_bbox root_x root_y sx sy ex ey).left ≤
      (capture_bbox root_x root_y sx sy ex ey).right ∧
    (capture_bbox root_x root_y sx sy ex ey).top ≤
      (capture_bbox root_x root_y sx sy ex ey).bottom :=
  ⟨add_le_add_left min_le_max root_x, add_le_add_left min_le_max root_y⟩

/-- Counterexample to claim C10 as stated: not every buffer access of
the hotkey-triggered operations holds the corresponding lock — the
transcribed access lists contain an unprotected access. -/
theorem release_handler_unlocked_read :
    all_hotkey_accesses.all lock_ok = false := by decide

/-- Claim C10 (amended): every modification of `logged_text`,
`logged_text_set` and `captured_images` by the hotkey-triggered
operations holds the corresponding lock, and so does every read except
one: the logging read of `len(self.captured_images)` in
`capture_region`'s release handler, which runs after its `with
self.image_lock:` block has ended.  All updates to the buffers are
therefore serialized by the two locks. -/
theorem lock_discipline_amended :
    ((all_hotkey_accesses.filter (fun a => decide (a.kind = AccessKind.write))).all
      lock_ok) = true ∧
    (all_hotkey_accesses.filter (fun a => !lock_ok a)) =
      [⟨Buffer.capturedImages, AccessKind.read, none⟩] ∧
    (capture_release_accesses.filter (fun a => !lock_ok a)) =
      [⟨Buffer.capturedImages, AccessKind.read, none⟩] := by
  refine ⟨by decide, by decide, by decide⟩
